import Mathlib

/-!
Verification development for the SKYCAST weather application's
resilient weather-data acquisition pipeline.

Shallow embedding of the relevant JavaScript source files:
  * `frontend/src/scripts/weatherAPI.js` — input validator, timeout/retry
    fetch client, response handler, error sanitizer (an alternate revision
    of the same module adds a geocoding step; both are embedded).
  * `backend/src/services/cacheService.js` — TTL cache over a `Map`, and
    the `WeatherService` cache-aside fetchers with fallback synthesis.
  * `backend/src/controllers/weatherController.js` — HTTP status
    classification of service errors.
  * the notification manager's `normalizeWeatherData` and the two
    revisions of `detectSignificantChanges`.

Strings are embedded as `List Char`; JavaScript numbers as `ℚ` (with
`Option` for `undefined`/`null`); clock readings (`Date.now()`) as explicit
`Nat` millisecond parameters.
-/

/-- ASCII lower-casing of a single character.  Models
`String.prototype.toLowerCase` restricted to the ASCII range, which covers
every string this code base lower-cases before comparison. -/
def lowerChar (c : Char) : Char :=
  if 65 ≤ c.toNat ∧ c.toNat ≤ 90 then Char.ofNat (c.toNat + 32) else c

/-- `\w` of JavaScript regexes: `[A-Za-z0-9_]`. -/
def isWordCharB (c : Char) : Bool :=
  (48 ≤ c.toNat && c.toNat ≤ 57) || (65 ≤ c.toNat && c.toNat ≤ 90) ||
  (97 ≤ c.toNat && c.toNat ≤ 122) || c.toNat == 95

/-- JavaScript whitespace, as recognised by `String.prototype.trim` and by
`\s` in regexes (the two sets coincide). -/
def isJsWhitespace (c : Char) : Bool :=
  (9 ≤ c.toNat && c.toNat ≤ 13) || c.toNat == 32 || c.toNat == 0xA0 ||
  c.toNat == 0x1680 || (0x2000 ≤ c.toNat && c.toNat ≤ 0x200A) ||
  c.toNat == 0x2028 || c.toNat == 0x2029 || c.toNat == 0x202F ||
  c.toNat == 0x205F || c.toNat == 0x3000 || c.toNat == 0xFEFF

/-- `input.trim()`: strip JavaScript whitespace from both ends. -/
def jsTrim (s : List Char) : List Char :=
  ((s.dropWhile isJsWhitespace).reverse.dropWhile isJsWhitespace).reverse

/-- Does `s` start with `p` (exact character match)? -/
def startsWithChars : List Char → List Char → Bool
  | [], _ => true
  | _ :: _, [] => false
  | p :: ps, c :: cs => p == c && startsWithChars ps cs

/-- `String.prototype.includes`: `p` occurs contiguously in `s`. -/
def containsSub : List Char → List Char → Bool
  | p, [] => p.isEmpty
  | p, c :: rest => startsWithChars p (c :: rest) || containsSub p rest

/-- Does `s` start with `p`, compared case-insensitively (regex `i` flag)? -/
def startsWithCI : List Char → List Char → Bool
  | [], _ => true
  | _ :: _, [] => false
  | p :: ps, c :: cs => lowerChar p == lowerChar c && startsWithCI ps cs

/-- Left side of a `\b` word boundary: position is the start of the string
or the previous character is a non-word character. -/
def boundaryL : Option Char → Bool
  | none => true
  | some c => !isWordCharB c

/-- Right side of a `\b` word boundary: end of string or a non-word
character follows. -/
def boundaryR : List Char → Bool
  | [] => true
  | c :: _ => !isWordCharB c

/-- Scan for an occurrence of `kw` delimited by `\b` on both sides,
case-insensitively; `prev` is the character before the current position. -/
def hasWordCIAux (kw : List Char) : Option Char → List Char → Bool
  | _, [] => false
  | prev, c :: rest =>
    (boundaryL prev && startsWithCI kw (c :: rest) &&
      boundaryR ((c :: rest).drop kw.length)) ||
    hasWordCIAux kw (some c) rest

/-- The regex test `/\bkw\b/i.test s`. -/
def hasWordCI (kw s : List Char) : Bool := hasWordCIAux kw none s

/-- Line terminators, which `.` in a JavaScript regex does not match. -/
def isLineTerm (c : Char) : Bool :=
  c.toNat == 10 || c.toNat == 13 || c.toNat == 0x2028 || c.toNat == 0x2029

def isDigitB (c : Char) : Bool := 48 ≤ c.toNat && c.toNat ≤ 57

/-- The characters `' " = > <` of the second group of the boolean-injection
pattern. -/
def cmpChar (c : Char) : Bool :=
  c.toNat == 39 || c.toNat == 34 || c.toNat == 61 || c.toNat == 62 ||
  c.toNat == 60

/-- Does the second group `\b(\d+|\'|\"|=|>|<)` of the boolean-injection
regex match at the current position (`prev` = preceding character)?
`\b` before a digit needs a non-word character (or start) on the left;
`\b` before one of the non-word characters `' " = > <` needs a word
character on the left. -/
def secondGroupHere (prev : Option Char) (s : List Char) : Bool :=
  match s with
  | [] => false
  | c :: _ =>
    (isDigitB c && boundaryL prev) ||
    (cmpChar c && (match prev with | some p => isWordCharB p | none => false))

/-- Scan `.*\b(\d+|\'|\"|=|>|<)` from the current position: the gap crossed
by `.*` may not contain a line terminator. -/
def scanSecond : Option Char → List Char → Bool
  | prev, [] => secondGroupHere prev []
  | prev, c :: rest =>
    secondGroupHere prev (c :: rest) || (!isLineTerm c && scanSecond (some c) rest)

/-- `\bkw\b` at the head of `s`, followed (possibly after `.*`) by the
second group of the boolean-injection pattern. -/
def kwThenCmp (kw : List Char) (s : List Char) : Bool :=
  startsWithCI kw s && boundaryR (s.drop kw.length) &&
  scanSecond ((s.take kw.length).getLast?) (s.drop kw.length)

/-- Scan of `/(\b(OR|AND|NOT)\b.*\b(\d+|\'|\"|=|>|<))/i`. -/
def dangerous2Aux : Option Char → List Char → Bool
  | _, [] => false
  | prev, c :: rest =>
    (boundaryL prev &&
      (kwThenCmp ("or".toList) (c :: rest) || kwThenCmp ("and".toList) (c :: rest) ||
        kwThenCmp ("not".toList) (c :: rest))) ||
    dangerous2Aux (some c) rest

/-- `weatherAPI.js` dangerous pattern 1: SQL keywords on word boundaries,
case-insensitive. -/
def dangerous1 (s : List Char) : Bool :=
  ["select", "insert", "update", "delete", "drop", "union", "exec", "alter",
    "create", "show", "grant", "revoke"].any (fun kw => hasWordCI kw.toList s)

/-- Dangerous pattern 2: boolean-injection idiom `OR/AND/NOT … cmp`. -/
def dangerous2 (s : List Char) : Bool := dangerous2Aux none s

/-- Dangerous pattern 3: statement separators / comment markers
`; -- /* */ \* \-`. -/
def dangerous3 (s : List Char) : Bool :=
  containsSub (";".toList) s || containsSub ("--".toList) s ||
  containsSub ("/*".toList) s || containsSub ("*/".toList) s ||
  containsSub ("\\*".toList) s || containsSub ("\\-".toList) s

/-- Dangerous pattern 4: `|| && >> << ..`. -/
def dangerous4 (s : List Char) : Bool :=
  containsSub ("||".toList) s || containsSub ("&&".toList) s ||
  containsSub (">>".toList) s || containsSub ("<<".toList) s ||
  containsSub ("..".toList) s

/-- One of the characters dollar, left/right brace, left/right bracket,
backtick (code points 36, 123, 125, 91, 93, 96). -/
def metaChar (c : Char) : Bool :=
  c.toNat == 36 || c.toNat == 123 || c.toNat == 125 || c.toNat == 91 ||
  c.toNat == 93 || c.toNat == 96

/-- Dangerous pattern 5: template/shell metacharacters. -/
def dangerous5 (s : List Char) : Bool := s.any metaChar

/-- Dangerous pattern 6: literal `true/false/null/undefined` tokens. -/
def dangerous6 (s : List Char) : Bool :=
  ["true", "false", "null", "undefined"].any (fun kw => hasWordCI kw.toList s)

/-- The character class of `safePattern`:
`[a-zA-ZÀ-ÿ0-9\s\-,.'()]` (code points 0xC0–0xFF for `À-ÿ`; 45 44 46 39 40
41 for hyphen comma period apostrophe parens). -/
def safeChar (c : Char) : Bool :=
  (65 ≤ c.toNat && c.toNat ≤ 90) || (97 ≤ c.toNat && c.toNat ≤ 122) ||
  (0xC0 ≤ c.toNat && c.toNat ≤ 0xFF) || (48 ≤ c.toNat && c.toNat ≤ 57) ||
  isJsWhitespace c || c.toNat == 45 || c.toNat == 44 || c.toNat == 46 ||
  c.toNat == 39 || c.toNat == 40 || c.toNat == 41

/-- Code points that Unicode NFKC maps to a plain space. -/
def compatSpace (c : Char) : Bool :=
  c.toNat == 0xA0 || (0x2000 ≤ c.toNat && c.toNat ≤ 0x200A) ||
  c.toNat == 0x202F || c.toNat == 0x205F || c.toNat == 0x3000

/-- Modelled from the spec / the runtime: `String.prototype.normalize('NFKC')`
restricted to the character set accepted by `safePattern`, on which the
normal form acts pointwise — the identity everywhere except on the
compatibility white-space code points, which map to a plain space. -/
def nfkcModel (s : List Char) : List Char :=
  s.map (fun c => if compatSpace c then ' ' else c)

/-- Outcomes of `validateInput` throwing. The constructor order mirrors the
order of the checks in the source. -/
inductive ValidationError where
  | empty
  | tooLong (maxLength : Nat)
  | injection
  | invalidChars
deriving DecidableEq, Repr

/-- The thrown `Error`'s `.message` for each validation failure, as written
in `weatherAPI.js`. -/
def validationMessage : ValidationError → List Char
  | .empty => "Input cannot be empty".toList
  | .tooLong n =>
      "Input too long (max ".toList ++ Nat.toDigits 10 n ++ " characters)".toList
  | .injection => "Invalid input detected".toList
  | .invalidChars =>
      ("Please enter a valid city name with only letters, numbers, spaces, " ++
        "hyphens, apostrophes, commas, dots, or parentheses").toList

/-- `validateInput` of `weatherAPI.js` (identical in both revisions of the
module): trim, emptiness and length checks, the six dangerous-pattern
tests, the safe-character class, then NFKC normalisation of the result. -/
def validateInput (input : List Char) (maxLength : Nat) :
    Except ValidationError (List Char) :=
  let trimmed := jsTrim input
  if trimmed.length = 0 then .error .empty
  else if maxLength < trimmed.length then .error (.tooLong maxLength)
  else if dangerous1 trimmed || dangerous2 trimmed || dangerous3 trimmed ||
      dangerous4 trimmed || dangerous5 trimmed || dangerous6 trimmed then
    .error .injection
  else if !(trimmed.all safeChar) then .error .invalidChars
  else .ok (nfkcModel trimmed)

instance {ε α : Type} [DecidableEq ε] [DecidableEq α] : DecidableEq (Except ε α)
  | .ok a, .ok b =>
      if h : a = b then .isTrue (by rw [h]) else .isFalse (by simp [h])
  | .error a, .error b =>
      if h : a = b then .isTrue (by rw [h]) else .isFalse (by simp [h])
  | .ok _, .error _ => .isFalse (by simp)
  | .error _, .ok _ => .isFalse (by simp)

/-! ## `cacheService.js`: the TTL cache over a shared `Map` -/

/-- A stored cache item: `{ value, expiry: Date.now() + ttl }`. -/
structure CacheEntry (α : Type) where
  value : α
  expiry : Nat
deriving DecidableEq, Repr

/-- The backing `Map`, embedded as an insertion-ordered association list
with unique keys (the `Map` invariant; see `CacheWF`). -/
abbrev CacheMap (α : Type) := List (List Char × CacheEntry α)

/-- `Map.prototype.get`. -/
def mapGet {α : Type} : CacheMap α → List Char → Option (CacheEntry α)
  | [], _ => none
  | (k', e) :: rest, k => if k' = k then some e else mapGet rest k

/-- `Map.prototype.set`: replace in place if the key exists (keeping
insertion order, as a JavaScript `Map` does), otherwise append. -/
def mapSet {α : Type} : CacheMap α → List Char → CacheEntry α → CacheMap α
  | [], k, e => [(k, e)]
  | (k', e') :: rest, k, e =>
      if k' = k then (k, e) :: rest else (k', e') :: mapSet rest k e

/-- `Map.prototype.delete`. -/
def mapDelete {α : Type} : CacheMap α → List Char → CacheMap α
  | [], _ => []
  | (k', e') :: rest, k => if k' = k then rest else (k', e') :: mapDelete rest k

def cacheKeys {α : Type} (c : CacheMap α) : List (List Char) := c.map Prod.fst

/-- The `Map` representation invariant: every key appears at most once. -/
def CacheWF {α : Type} (c : CacheMap α) : Prop := (cacheKeys c).Nodup

/-- `cacheService.get`, with the clock passed explicitly: return the value
if `item.expiry > Date.now()`, otherwise delete the key and report absent
(the delete also runs when the key was never present, as in the source).
Returns the result together with the updated map. -/
def cacheGet {α : Type} (c : CacheMap α) (k : List Char) (now : Nat) :
    Option α × CacheMap α :=
  match mapGet c k with
  | some item => if now < item.expiry then (some item.value, c) else (none, mapDelete c k)
  | none => (none, mapDelete c k)

/-- `cacheService.set`: store `{ value, expiry: Date.now() + ttl }`.  The
source's default for `ttl` is `600000` (documented as "10 minutes", i.e.
the unit is milliseconds). -/
def cacheSet {α : Type} (c : CacheMap α) (k : List Char) (v : α) (ttl : Nat)
    (now : Nat) : CacheMap α :=
  mapSet c k ⟨v, now + ttl⟩

theorem mapGet_mapSet_self {α : Type} (c : CacheMap α) (k : List Char)
    (e : CacheEntry α) : mapGet (mapSet c k e) k = some e := by
  induction c with
  | nil => simp [mapSet, mapGet]
  | cons p rest ih =>
    obtain ⟨k', e'⟩ := p
    by_cases h : k' = k
    · simp [mapSet, mapGet, h]
    · simp [mapSet, mapGet, h, ih]

theorem mapGet_eq_none_of_not_mem {α : Type} (c : CacheMap α) (k : List Char)
    (h : k ∉ cacheKeys c) : mapGet c k = none := by
  induction c with
  | nil => rfl
  | cons p rest ih =>
    obtain ⟨k', e'⟩ := p
    simp only [cacheKeys, List.map_cons, List.mem_cons, not_or] at h
    have hne : k' ≠ k := fun hh => h.1 hh.symm
    simp only [mapGet, if_neg hne]
    exact ih h.2

theorem cacheKeys_mapSet {α : Type} (c : CacheMap α) (k : List Char)
    (e : CacheEntry α) :
    cacheKeys (mapSet c k e) = cacheKeys c ∨
      cacheKeys (mapSet c k e) = cacheKeys c ++ [k] := by
  induction c with
  | nil =>
    right
    simp [mapSet, cacheKeys]
  | cons p rest ih =>
    obtain ⟨k', e'⟩ := p
    by_cases h : k' = k
    · left
      simp [mapSet, h, cacheKeys]
    · rcases ih with ih | ih
      · left
        rw [mapSet, if_neg h]
        simpa [cacheKeys] using ih
      · right
        rw [mapSet, if_neg h]
        simpa [cacheKeys] using ih

theorem cacheWF_mapSet {α : Type} (c : CacheMap α) (k : List Char)
    (e : CacheEntry α) (h : CacheWF c) : CacheWF (mapSet c k e) := by
  induction c with
  | nil => simp [CacheWF, mapSet, cacheKeys]
  | cons p rest ih =>
    obtain ⟨k', e'⟩ := p
    simp only [CacheWF, cacheKeys, List.map_cons, List.nodup_cons] at h
    by_cases hk : k' = k
    · subst hk
      rw [mapSet, if_pos rfl]
      simp only [CacheWF, cacheKeys, List.map_cons, List.nodup_cons]
      exact h
    · have hrest : CacheWF (mapSet rest k e) := ih h.2
      rw [mapSet, if_neg hk]
      simp only [CacheWF, cacheKeys, List.map_cons, List.nodup_cons]
      refine ⟨?_, hrest⟩
      rcases cacheKeys_mapSet rest k e with heq | heq
      · rw [show (mapSet rest k e).map Prod.fst = cacheKeys (mapSet rest k e) from rfl,
          heq]
        exact fun hmem => h.1 hmem
      · rw [show (mapSet rest k e).map Prod.fst = cacheKeys (mapSet rest k e) from rfl,
          heq]
        simp only [List.mem_append, List.mem_singleton]
        rintro (hmem | rfl)
        · exact h.1 hmem
        · exact hk rfl

theorem mapGet_mapDelete_self {α : Type} (c : CacheMap α) (k : List Char)
    (h : CacheWF c) : mapGet (mapDelete c k) k = none := by
  induction c with
  | nil => rfl
  | cons p rest ih =>
    obtain ⟨k', e'⟩ := p
    simp only [CacheWF, cacheKeys, List.map_cons, List.nodup_cons] at h
    by_cases hk : k' = k
    · subst hk
      rw [mapDelete, if_pos rfl]
      exact mapGet_eq_none_of_not_mem rest k' h.1
    · simp only [mapDelete, if_neg hk, mapGet]
      exact ih h.2

/-- If a lookup misses, the state after the lookup is the map with the key
deleted. -/
theorem cacheGet_miss_state {α : Type} (c : CacheMap α) (k : List Char)
    (now : Nat) (h : (cacheGet c k now).1 = none) :
    (cacheGet c k now).2 = mapDelete c k := by
  unfold cacheGet at *
  cases hm : mapGet c k with
  | none => simp [hm]
  | some item =>
    simp only [hm] at h ⊢
    by_cases hl : now < item.expiry
    · simp [hl] at h
    · simp [hl]

/-! ## `weatherService` (in `cacheService.js`): cache-aside fetchers -/

/-- `Math.round`: round half toward positive infinity. -/
def jsRound (q : ℚ) : Int := ⌊q + 1 / 2⌋

/-- The fields of an OpenWeatherMap `/weather` response that
`weatherService` reads. -/
structure OwmCurrent where
  name : List Char
  country : List Char
  lat : Int
  lon : Int
  temp : ℚ
  feels_like : ℚ
  temp_min : ℚ
  temp_max : ℚ
  humidity : Int
  pressure : Int
  windSpeed : ℚ
  windDeg : Int
  cloudsAll : Int
  visibility : Int
  weatherMain : List Char
  weatherDescription : List Char
  weatherIcon : List Char
  sunrise : Int
  sunset : Int
deriving DecidableEq, Repr

/-- The `weatherData` object built by `weatherService.getCurrentWeather` /
`getCurrentWeatherByCity`.  Successful responses carry no `fallback`
property (embedded as `fallback = false`); `generateFallbackWeather` sets
`fallback: true`.  `new Date().toISOString()` is embedded as the
millisecond clock value. -/
structure WeatherPayload where
  locationName : List Char
  locationCountry : List Char
  lat : Int
  lon : Int
  temperature : Int
  feelsLike : Int
  tempMin : Int
  tempMax : Int
  humidity : Int
  pressure : Int
  windSpeed : ℚ
  windDirection : Int
  cloudiness : Int
  visibility : Int
  weatherMain : List Char
  weatherDescription : List Char
  weatherIcon : List Char
  sunrise : Int
  sunset : Int
  fallback : Bool
  timestampMs : Nat
deriving DecidableEq, Repr

def buildCurrentWeather (d : OwmCurrent) (now : Nat) : WeatherPayload :=
  ⟨d.name, d.country, d.lat, d.lon, jsRound d.temp, jsRound d.feels_like,
    jsRound d.temp_min, jsRound d.temp_max, d.humidity, d.pressure,
    d.windSpeed, d.windDeg, d.cloudsAll, d.visibility, d.weatherMain,
    d.weatherDescription, d.weatherIcon, d.sunrise, d.sunset, false, now⟩

/-- `weatherService.generateFallbackWeather`. -/
def generateFallbackWeather (lat lon : Int) (name : Option (List Char))
    (now : Nat) : WeatherPayload :=
  ⟨name.getD ("Unknown Location".toList), "XX".toList, lat, lon, 20, 19, 18,
    23, 60, 1013, 7 / 2, 180, 40, 10000, "Clouds".toList,
    "scattered clouds".toList, "03d".toList, (now : Int) / 1000 - 3600,
    (now : Int) / 1000 + 3600, true, now⟩

def natStr (n : Nat) : List Char := Nat.toDigits 10 n

def intStr (i : Int) : List Char :=
  if i < 0 then '-' :: natStr i.natAbs else natStr i.natAbs

/-- The cache key `` `weather:current:${lat}:${lon}` ``. -/
def currentWeatherKey (lat lon : Int) : List Char :=
  "weather:current:".toList ++ intStr lat ++ [':'] ++ intStr lon

/-- The TTL literal passed by `getCurrentWeather` and
`getCurrentWeatherByCity` (`cache.set(cacheKey, weatherData, 600)`), whose
adjacent comment reads "Cache for 10 minutes". -/
def currentWeatherTtl : Nat := 600

/-- The TTL literal passed by `getForecast` / `getForecastByCity`
(`cache.set(cacheKey, forecastData, 1800)`), commented "30 minutes". -/
def forecastTtl : Nat := 1800

/-- The TTL literal passed by `getHistoricalWeather`
(`cache.set(cacheKey, historicalData, 3600)`), commented
"Cache for 1 hour". -/
def historicalTtl : Nat := 3600

/-- `weatherService.getCurrentWeather(lat, lon)`: cache-aside over the
provider, degrading to `generateFallbackWeather` when the provider call
throws (`provider = none`). -/
def wsGetCurrentWeather (lat lon : Int) (st : CacheMap WeatherPayload)
    (now : Nat) (provider : Option OwmCurrent) :
    WeatherPayload × CacheMap WeatherPayload :=
  let key := currentWeatherKey lat lon
  match cacheGet st key now with
  | (some w, st1) => (w, st1)
  | (none, st1) =>
    match provider with
    | some d =>
      let w := buildCurrentWeather d now
      (w, cacheSet st1 key w currentWeatherTtl now)
    | none => (generateFallbackWeather lat lon none now, st1)

/-- Failure kinds of a provider (axios) request. -/
inductive UpstreamFailure where
  | httpStatus (code : Nat)
  | network
  | timedOut
deriving DecidableEq, Repr

/-- The cache key `` `weather:city:${cityName.toLowerCase()}` ``. -/
def cityWeatherKey (city : List Char) : List Char :=
  "weather:city:".toList ++ city.map lowerChar

/-- `weatherService.getCurrentWeatherByCity`: cache-aside; on any provider
failure it throws `` `City not found: ${cityName}` ``.  The last component
counts provider calls (0 on a cache hit, 1 on a miss — the service has no
retry construct). -/
def wsGetCurrentWeatherByCity (city : List Char)
    (st : CacheMap WeatherPayload) (now : Nat)
    (provider : Except UpstreamFailure OwmCurrent) :
    (Except (List Char) WeatherPayload × CacheMap WeatherPayload) × Nat :=
  let key := cityWeatherKey city
  match cacheGet st key now with
  | (some w, st1) => ((.ok w, st1), 0)
  | (none, st1) =>
    match provider with
    | .ok d =>
      let w := buildCurrentWeather d now
      ((.ok w, cacheSet st1 key w currentWeatherTtl now), 1)
    | .error _ => ((.error ("City not found: ".toList ++ city), st1), 1)

/-! ## `weatherController.getCurrentWeather` (city branch) -/

/-- An HTTP response sent by the controller. -/
structure ApiResponse where
  status : Nat
  success : Bool
  message : List Char
deriving DecidableEq, Repr

/-- `city.split('-')[0]`: the prefix before the first hyphen. -/
def stripSuffix (city : List Char) : List Char :=
  city.takeWhile (fun c => c.toNat ≠ 45)

/-- The controller's city branch: strip the suffix (`city.split('-')[0]`),
call the service, then classify thrown errors — messages containing
"City not found" (either case) become HTTP 404, everything else becomes
HTTP 500. -/
def controllerGetCurrentByCity (cityParam : List Char)
    (st : CacheMap WeatherPayload) (now : Nat)
    (provider : Except UpstreamFailure OwmCurrent) :
    ApiResponse × CacheMap WeatherPayload × Nat :=
  let city := stripSuffix cityParam
  match wsGetCurrentWeatherByCity city st now provider with
  | ((.ok _, st'), n) => (⟨200, true, []⟩, st', n)
  | ((.error e, st'), n) =>
    if containsSub ("City not found".toList) e ||
        containsSub ("city not found".toList) e then
      (⟨404, false, e⟩, st', n)
    else
      (⟨500, false, "Failed to fetch weather data".toList⟩, st', n)

/-! ## The alternate weather route (unnamed source file): `sanitizeError` -/

/-- Axios error shapes distinguished by the alternate route's
`sanitizeError`. -/
inductive AxiosError where
  | connAborted
  | dnsFail
  | response (status : Nat)
  | other
deriving DecidableEq, Repr

/-- `sanitizeError` of the alternate backend weather route: maps an axios
error to `(HTTP status, user-facing message)`, distinguishing upstream 404
from timeouts, DNS failures and other statuses. -/
def routeSanitizeError : AxiosError → Nat × List Char
  | .connAborted => (504, "Weather service timeout. Please try again.".toList)
  | .dnsFail => (503, "Unable to reach weather service. Check your connection.".toList)
  | .response 404 => (404, "City not found. Please check the spelling.".toList)
  | .response 401 => (500, "Service temporarily unavailable.".toList)
  | .response 429 => (429, "Too many requests. Please try again later.".toList)
  | .response _ => (500, "Unable to fetch weather data.".toList)
  | .other => (500, "Internal server error.".toList)

/-! ## `weatherAPI.js`: timeout/retry fetch client and response handling -/

/-- A thrown JavaScript `Error` as inspected by `fetchWithRetry`: its
`.message`, and its `.status` property (which no error produced in this
code base actually carries, embedded as `Option Nat`). -/
structure JsError where
  msg : List Char
  errStatus : Option Nat
deriving DecidableEq, Repr

/-- The `Response` object resolved by `fetch`, as consumed by
`handleResponse`: HTTP status, whether the `content-type` header includes
`application/json`, whether the body parses as JSON, whether the parsed
body has `success === false` or a truthy `error` field, and the payload
eventually returned (`data.data || data`). -/
structure JsResponse (β : Type) where
  status : Nat
  ctJson : Bool
  jsonParses : Bool
  successFalse : Bool
  errorField : Bool
  payload : β
deriving DecidableEq, Repr

/-- Outcome of one `fetch` attempt against the backend. -/
inductive FetchOutcome (β : Type) where
  | resp (r : JsResponse β)
  | netError
  | abortTimeout
deriving DecidableEq, Repr

/-- `fetchWithTimeout`: reject non-http(s) URLs before fetching, convert an
`AbortError` into the timeout message, otherwise resolve with the response
(whatever its status).  The second component counts network calls (0 when
the protocol check fails, 1 otherwise). -/
def fetchWithTimeout {β : Type} (schemeOk : Bool) (o : FetchOutcome β) :
    Except JsError (JsResponse β) × Nat :=
  if !schemeOk then (.error ⟨"Invalid protocol".toList, none⟩, 0)
  else
    match o with
    | .resp r => (.ok r, 1)
    | .netError => (.error ⟨"Failed to fetch".toList, none⟩, 1)
    | .abortTimeout =>
      (.error ⟨"Request timeout. Please check your connection and try again.".toList,
        none⟩, 1)

/-- The terminal-error classifier inside `fetchWithRetry`'s `catch`:
message inspection plus the (dead) `error.status` range check. -/
def isTerminalErr (e : JsError) : Bool :=
  containsSub ("invalid".toList) e.msg || containsSub ("timeout".toList) e.msg ||
  containsSub ("Invalid protocol".toList) e.msg ||
  containsSub ("Potential SQL injection".toList) e.msg ||
  (match e.errStatus with
    | some s => decide (400 ≤ s) && decide (s < 500)
    | none => false)

/-- `MAX_RETRIES = 2`. -/
def MAX_RETRIES : Nat := 2

/-- The loop body of `fetchWithRetry`: attempt `i`, with `remaining`
further attempts allowed.  A resolved response — of any HTTP status — is
returned immediately; thrown errors are rethrown if terminal, retried
otherwise.  Counts network calls in the second component. -/
def fetchWithRetryAux {β : Type} (schemeOk : Bool)
    (script : Nat → FetchOutcome β) :
    Nat → Nat → Except JsError (JsResponse β) × Nat
  | i, 0 =>
    let step := fetchWithTimeout schemeOk (script i)
    match step.1 with
    | .ok r => (.ok r, step.2)
    | .error e => (.error e, step.2)
  | i, rem + 1 =>
    let step := fetchWithTimeout schemeOk (script i)
    match step.1 with
    | .ok r => (.ok r, step.2)
    | .error e =>
      if isTerminalErr e then (.error e, step.2)
      else
        let next := fetchWithRetryAux schemeOk script (i + 1) rem
        (next.1, step.2 + next.2)

/-- `fetchWithRetry(url, options, retries = MAX_RETRIES)`: the `script`
gives the outcome of each successive fetch attempt. -/
def fetchWithRetry {β : Type} (schemeOk : Bool)
    (script : Nat → FetchOutcome β) (retries : Nat) :
    Except JsError (JsResponse β) × Nat :=
  fetchWithRetryAux schemeOk script 0 retries

/-- `handleResponse`: content-type check, JSON parse, `response.ok` check
(status 200–299), then the `success === false || error` body check. -/
def handleResponse {β : Type} (r : JsResponse β) : Except JsError β :=
  if !r.ctJson then .error ⟨"Invalid response format from server".toList, none⟩
  else if !r.jsonParses then .error ⟨"Invalid JSON response from server".toList, none⟩
  else if !(decide (200 ≤ r.status) && decide (r.status < 300)) then
    .error ⟨"Server error (".toList ++ natStr r.status ++ ")".toList, none⟩
  else if r.successFalse || r.errorField then .error ⟨"Request failed".toList, none⟩
  else .ok r.payload

/-- The `errorMap` of `sanitizeError`, in source order. -/
def errorMapList : List (List Char × List Char) :=
  [("Failed to fetch".toList,
      "Unable to connect to the server. Please check your internet connection.".toList),
    ("NetworkError".toList, "Network error. Please check your connection.".toList),
    ("timeout".toList, "Request timed out. Please try again.".toList),
    ("invalid characters".toList, "Please enter a valid city name.".toList),
    ("invalid input detected".toList, "Invalid input provided.".toList),
    ("too long".toList, "City name is too long.".toList),
    ("cannot be empty".toList, "Please enter a city name.".toList),
    ("invalid response format".toList, "Server returned invalid data format.".toList),
    ("invalid json".toList, "Server returned invalid data.".toList),
    ("invalid protocol".toList, "Invalid request configuration.".toList)]

/-- `sanitizeError`: first map entry whose (lower-cased) key occurs in the
lower-cased message, else the generic fallback text. -/
def sanitizeError (e : JsError) : List Char :=
  let m := e.msg.map lowerChar
  match errorMapList.find? (fun kv => containsSub (kv.1.map lowerChar) m) with
  | some kv => kv.2
  | none => "Unable to fetch weather data. Please try again.".toList

/-- `weatherAPI.getCurrentWeather` (first revision, talking to the app's
own backend): validate, fetch with retry against the http(s) backend URL,
handle the response; every thrown error is sanitized.  The second
component counts network calls. -/
def feGetCurrentWeather {β : Type} (city : List Char)
    (script : Nat → FetchOutcome β) : Except (List Char) β × Nat :=
  match validateInput city 100 with
  | .error ve => (.error (sanitizeError ⟨validationMessage ve, none⟩), 0)
  | .ok _ =>
    let fetched := fetchWithRetry true script MAX_RETRIES
    match fetched.1 with
    | .error e => (.error (sanitizeError e), fetched.2)
    | .ok r =>
      match handleResponse r with
      | .error e => (.error (sanitizeError e), fetched.2)
      | .ok payload => (.ok payload, fetched.2)

/-! ## The alternate `weatherAPI.js` revision: geocode, fetch by
coordinates, mock-data fallback -/

/-- Outcome of the `geocodeCity` call (one fetch against the geocoding
service). -/
inductive GeoOutcome where
  | geoNetError
  | geoBadStatus
  | geoEmpty
  | geoFound (lat lon : Int) (displayName : List Char)
deriving DecidableEq, Repr

/-- Result of the alternate revision's `getCurrentWeather`: either real
formatted data with the geocoder's display name, or the mock data produced
by `getMockCurrentWeather(city)` (whose randomised fields are abstracted
behind the constructor). -/
inductive P3Result (γ : Type) where
  | real (w : γ) (displayName : List Char)
  | mockData (city : List Char)
deriving DecidableEq, Repr

/-- The alternate revision's `getCurrentWeather`: validate, geocode (one
network call), fetch by coordinates with retry, format; any thrown error
falls back to mock data.  The last component counts network calls. -/
def p3GetCurrentWeather {β γ : Type} (city : List Char) (geo : GeoOutcome)
    (script : Nat → FetchOutcome β) (format : β → γ) :
    P3Result γ × Nat :=
  match validateInput city 100 with
  | .error _ => (.mockData city, 0)
  | .ok _ =>
    match geo with
    | .geoFound _ _ dn =>
      let fetched := fetchWithRetry true script MAX_RETRIES
      match fetched.1 with
      | .ok r =>
        match handleResponse r with
        | .ok raw => (.real (format raw) dn, 1 + fetched.2)
        | .error _ => (.mockData city, 1 + fetched.2)
      | .error _ => (.mockData city, 1 + fetched.2)
    | _ => (.mockData city, 1)

/-- The provider script of the spec's end-to-end scenario: HTTP 500 (JSON
body with `success:false`) on the first two attempts, HTTP 200 with a good
JSON body on the third. -/
def script500 : Nat → FetchOutcome (List Char) := fun n =>
  if n < 2 then .resp ⟨500, true, true, true, false, "error body".toList⟩
  else .resp ⟨200, true, true, false, false, "snapshot".toList⟩

/-- Two network failures, then a good response. -/
def scriptNetThenOk : Nat → FetchOutcome (List Char) := fun n =>
  if n < 2 then .netError
  else .resp ⟨200, true, true, false, false, "snapshot".toList⟩

/-! ## `formatCurrentWeather` (alternate `weatherAPI.js` revision) -/

/-- JavaScript truthiness of an optional number (`0` and `undefined` are
falsy; `NaN` is outside the model). -/
def truthyQ : Option ℚ → Bool
  | some v => decide (v ≠ 0)
  | none => false

/-- `a || b` on optional numbers. -/
def jsOrQ (a b : Option ℚ) : Option ℚ := if truthyQ a then a else b

/-- JavaScript truthiness of an optional string (the empty string and
`undefined` are falsy). -/
def truthyS : Option (List Char) → Bool
  | some s => decide (s ≠ [])
  | none => false

/-- `a || b` on optional strings. -/
def jsOrS (a b : Option (List Char)) : Option (List Char) :=
  if truthyS a then a else b

/-- `a || dflt` with a string constant on the right. -/
def jsOrSD (a : Option (List Char)) (dflt : List Char) : List Char :=
  if truthyS a then a.getD dflt else dflt

/-- `x > t` where `x` may be `undefined` (then the comparison is false). -/
def jsGtQ (a : Option ℚ) (t : ℚ) : Bool :=
  match a with
  | some v => decide (t < v)
  | none => false

/-- The `location` object of the internal "current+coord" shape. -/
structure LocObj where
  name : Option (List Char)
  country : Option (List Char)
deriving DecidableEq, Repr

/-- The union of input fields probed by `formatCurrentWeather`, flattened:
`main_temp` stands for `data.main?.temp`, `current_temp` for
`data.current?.temp`, `weather0_description` for
`data.weather?.[0]?.description`, and so on.  `wind_num`/`snow_num` are the
flat numeric `data.wind`/`data.snow` of the internal shape, as opposed to
the OpenWeatherMap object paths `wind_speed`/`snow_1h`. -/
structure RawCW where
  location : Option LocObj
  coord : Option (Int × Int)
  temp : Option ℚ
  humidity : Option ℚ
  wind_num : Option ℚ
  cloud : Option ℚ
  aqi : Option ℚ
  aqi_label : Option (List Char)
  snow_num : Option ℚ
  name : Option (List Char)
  city : Option (List Char)
  country : Option (List Char)
  sys_country : Option (List Char)
  sys_sunrise : Option ℚ
  sys_sunset : Option ℚ
  astro_sunrise : Option ℚ
  astro_sunset : Option ℚ
  main_temp : Option ℚ
  main_feels_like : Option ℚ
  main_humidity : Option ℚ
  main_pressure : Option ℚ
  temperature : Option ℚ
  feelsLike : Option ℚ
  condition : Option (List Char)
  humidity_flat : Option ℚ
  pressure_flat : Option ℚ
  windSpeed : Option ℚ
  windDirection : Option ℚ
  cloudCover : Option ℚ
  visibility : Option ℚ
  weather0_description : Option (List Char)
  weather0_icon : Option (List Char)
  wind_speed : Option ℚ
  wind_deg : Option ℚ
  clouds_all : Option ℚ
  current_temp : Option ℚ
  current_feels_like : Option ℚ
  current_condition_text : Option (List Char)
  current_condition_icon : Option (List Char)
  current_humidity : Option ℚ
  current_pressure : Option ℚ
  current_wind_kph : Option ℚ
  current_wind_degree : Option ℚ
  current_cloud : Option ℚ
  current_vis_km : Option ℚ
  current_precip_mm : Option ℚ
  current_uv : Option ℚ
  dt : Option ℚ
  last_updated_epoch : Option ℚ
  rain_1h : Option ℚ
  snow_1h : Option ℚ
  uvi : Option ℚ
deriving DecidableEq, Repr

/-- The flat canonical fields of the object returned by
`formatCurrentWeather`.  (The branch for the internal shape additionally
replicates some fields under OpenWeatherMap-style nested keys, which
duplicate the flat ones and are omitted here.) -/
structure FormattedCW where
  fcity : List Char
  fcountry : List Char
  temperature : Option ℚ
  feelsLike : Option ℚ
  condition : List Char
  humidity : Option ℚ
  pressure : Option ℚ
  windSpeed : Option ℚ
  windDirection : Option ℚ
  cloudCover : Option ℚ
  visibility : Option ℚ
  sunrise : Option ℚ
  sunset : Option ℚ
  timestampNum : Option ℚ
  icon : Option (List Char)
  uvIndex : Option ℚ
  precipitation : Option ℚ
deriving DecidableEq, Repr

/-- `formatCurrentWeather(data)`: the internal "current+coord" branch when
`data.location && data.coord` are both (truthy) objects, otherwise the
generic branch whose every field is a `||`-chain over the known provider
paths in priority order. -/
def formatCurrentWeather (d : RawCW) (now : Nat) : FormattedCW :=
  if d.location.isSome && d.coord.isSome then
    let loc := d.location.getD ⟨none, none⟩
    { fcity := jsOrSD loc.name ("Unknown City".toList)
      fcountry := jsOrSD loc.country ("Unknown".toList)
      temperature := d.temp
      feelsLike := d.temp
      condition := if jsGtQ d.cloud 50 then "Cloudy".toList else "Clear".toList
      humidity := d.humidity
      pressure := some 1013
      windSpeed := d.wind_num
      windDirection := none
      cloudCover := d.cloud
      visibility := none
      sunrise := none
      sunset := none
      timestampNum := some ((now : ℚ) / 1000).floor
      icon := none
      uvIndex := none
      precipitation := jsOrQ d.snow_num (some 0) }
  else
    { fcity := jsOrSD (jsOrS (jsOrS d.name d.city)
        (d.location.bind LocObj.name)) ("Unknown City".toList)
      fcountry := jsOrSD (jsOrS (jsOrS d.sys_country d.country)
        (d.location.bind LocObj.country)) ("Unknown".toList)
      temperature := jsOrQ (jsOrQ (jsOrQ d.main_temp d.temperature)
        d.current_temp) (some 20)
      feelsLike := jsOrQ (jsOrQ d.main_feels_like d.feelsLike)
        d.current_feels_like
      condition := jsOrSD (jsOrS (jsOrS d.weather0_description d.condition)
        d.current_condition_text) ("Unknown".toList)
      humidity := jsOrQ (jsOrQ d.main_humidity d.humidity_flat)
        d.current_humidity
      pressure := jsOrQ (jsOrQ d.main_pressure d.pressure_flat)
        d.current_pressure
      windSpeed := jsOrQ (jsOrQ (jsOrQ d.wind_speed d.windSpeed)
        d.current_wind_kph) (some 0)
      windDirection := jsOrQ (jsOrQ d.wind_deg d.windDirection)
        d.current_wind_degree
      cloudCover := jsOrQ (jsOrQ d.clouds_all d.cloudCover) d.current_cloud
      visibility := jsOrQ d.visibility d.current_vis_km
      sunrise := jsOrQ d.sys_sunrise d.astro_sunrise
      sunset := jsOrQ d.sys_sunset d.astro_sunset
      timestampNum := jsOrQ (jsOrQ d.dt d.last_updated_epoch) (some (now : ℚ))
      icon := jsOrS d.weather0_icon d.current_condition_icon
      uvIndex := jsOrQ d.current_uv d.uvi
      precipitation := jsOrQ (jsOrQ (jsOrQ d.rain_1h d.snow_1h)
        d.current_precip_mm) (some 0) }

/-- A `RawCW` with every field absent. -/
def rawCWNone : RawCW :=
  ⟨none, none, none, none, none, none, none, none, none, none, none, none,
    none, none, none, none, none, none, none, none, none, none, none, none,
    none, none, none, none, none, none, none, none, none, none, none, none,
    none, none, none, none, none, none, none, none, none, none, none, none,
    none, none, none, none⟩

/-! ## `NotificationManager.normalizeWeatherData` (second revision) -/

/-- Input fields probed by `normalizeWeatherData`, flattened as in `RawCW`.
A `some` numeric field models a JavaScript number (so a `typeof x ===
'number'` guard is `Option.isSome`); `wind_num` is `rawData.wind` when it
is a number, `wind_speed` is `rawData.wind.speed` when `wind` is an
object. -/
structure RawN where
  city : Option (List Char)
  name : Option (List Char)
  location_name : Option (List Char)
  country : Option (List Char)
  sys_country : Option (List Char)
  location_country : Option (List Char)
  temperature : Option ℚ
  temp : Option ℚ
  main_temp : Option ℚ
  current_temp : Option ℚ
  feelsLike : Option ℚ
  feels_like : Option ℚ
  main_feels_like : Option ℚ
  condition : Option (List Char)
  weather0_description : Option (List Char)
  weather0_main : Option (List Char)
  current_condition_text : Option (List Char)
  windSpeed : Option ℚ
  wind_num : Option ℚ
  wind_speed : Option ℚ
  main_wind : Option ℚ
  current_wind_kph : Option ℚ
  humidity : Option ℚ
  main_humidity : Option ℚ
  current_humidity : Option ℚ
  precipitation : Option ℚ
  rain_1h : Option ℚ
  pop : Option ℚ
  pressure : Option ℚ
  main_pressure : Option ℚ
  uvIndex : Option ℚ
  uvi : Option ℚ
  current_uv : Option ℚ
deriving DecidableEq, Repr

/-- `Math.round(x * 10) / 10`. -/
def round1 (x : ℚ) : ℚ := (jsRound (x * 10) : ℚ) / 10

/-- The normalized object returned by `normalizeWeatherData`.
`temperature = none` models the string placeholder `'--'`; the other
`none`s model `null`. -/
structure NormalizedW where
  ncity : List Char
  ncountry : List Char
  temperature : Option Int
  feelsLike : Option Int
  condition : List Char
  windSpeed : Option ℚ
  humidity : Option Int
  precipitation : Option Int
  pressure : Option Int
  uvIndex : Option ℚ
  timestamp : Nat
deriving DecidableEq, Repr

/-- `normalizeWeatherData(rawData)`: every canonical field is extracted by
an if/else-if cascade over the known paths, taking the first *defined*
(for the `typeof`/`!== undefined` guards) or first *truthy* (for the `||`
chains on strings) value, with a documented default when all paths are
absent. -/
def normalizeWeatherData (r : RawN) (now : Nat) : NormalizedW :=
  { ncity := jsOrSD (jsOrS (jsOrS r.city r.name) r.location_name)
      ("Unknown Location".toList)
    ncountry := jsOrSD (jsOrS (jsOrS r.country r.sys_country)
      r.location_country) []
    temperature :=
      match r.temperature with
      | some v => some (jsRound v)
      | none =>
        match r.temp with
        | some v => some (jsRound v)
        | none =>
          match r.main_temp with
          | some v => some (jsRound v)
          | none =>
            match r.current_temp with
            | some v => some (jsRound v)
            | none => none
    feelsLike :=
      match r.feelsLike with
      | some v => some (jsRound v)
      | none =>
        match r.feels_like with
        | some v => some (jsRound v)
        | none =>
          match r.main_feels_like with
          | some v => some (jsRound v)
          | none => none
    condition :=
      match r.condition with
      | some s => s
      | none =>
        if truthyS r.weather0_description then
          r.weather0_description.getD []
        else if truthyS r.weather0_main then r.weather0_main.getD []
        else if truthyS r.current_condition_text then
          r.current_condition_text.getD []
        else "Unknown".toList
    windSpeed :=
      match r.windSpeed with
      | some v => some (round1 v)
      | none =>
        match r.wind_num with
        | some v => some (round1 v)
        | none =>
          match r.wind_speed with
          | some v => some (round1 v)
          | none =>
            match r.main_wind with
            | some v => some (round1 v)
            | none =>
              match r.current_wind_kph with
              | some v => some (round1 v)
              | none => none
    humidity :=
      match r.humidity with
      | some v => some (jsRound v)
      | none =>
        match r.main_humidity with
        | some v => some (jsRound v)
        | none =>
          match r.current_humidity with
          | some v => some (jsRound v)
          | none => none
    precipitation :=
      match r.precipitation with
      | some v => some (jsRound v)
      | none =>
        match r.rain_1h with
        | some v => some (jsRound v)
        | none =>
          match r.pop with
          | some v => some (jsRound (v * 100))
          | none => none
    pressure :=
      match r.pressure with
      | some v => some (jsRound v)
      | none =>
        match r.main_pressure with
        | some v => some (jsRound v)
        | none => none
    uvIndex :=
      match r.uvIndex with
      | some v => some v
      | none =>
        match r.uvi with
        | some v => some v
        | none =>
          match r.current_uv with
          | some v => some v
          | none => none
    timestamp := now }

/-- A `RawN` with every field absent. -/
def rawNNone : RawN :=
  ⟨none, none, none, none, none, none, none, none, none, none, none, none,
    none, none, none, none, none, none, none, none, none, none, none, none,
    none, none, none, none, none, none, none, none, none⟩

/-! ## The two revisions of `detectSignificantChanges` -/

/-- A snapshot as compared by the first revision
(`frontend/src/scripts/notificationManager.js`): fields may be absent
(`undefined`).  An absent numeric operand makes the arithmetic produce
`NaN`, whose threshold comparison is false, so the `Option` model yields
the same emitted entries. -/
structure SnapA where
  temperature : Option ℚ
  precipitation : Option ℚ
  condition : Option (List Char)
  wind : Option ℚ
deriving DecidableEq, Repr

/-- A change entry of the first revision, tagged by the field that
triggered it. -/
inductive ChangeA where
  | tempA (increased : Bool) (diff : ℚ)
  | precipA (diff : ℚ)
  | condA (oldC newC : Option (List Char))
  | windA (diff : ℚ)
deriving DecidableEq, Repr

def tempPartA (o n : SnapA) : List ChangeA :=
  match o.temperature, n.temperature with
  | some a, some b => if 2 ≤ |b - a| then [.tempA (decide (a < b)) |b - a|] else []
  | _, _ => []

def precipPartA (o n : SnapA) : List ChangeA :=
  match o.precipitation, n.precipitation with
  | some a, some b => if 20 ≤ |b - a| then [.precipA |b - a|] else []
  | _, _ => []

def condPartA (o n : SnapA) : List ChangeA :=
  if o.condition ≠ n.condition then [.condA o.condition n.condition] else []

def windPartA (o n : SnapA) : List ChangeA :=
  match o.wind, n.wind with
  | some a, some b => if 15 ≤ |b - a| then [.windA |b - a|] else []
  | _, _ => []

/-- `detectSignificantChanges` of the first revision: temperature threshold
2, unguarded condition inequality (`!==`), `!== undefined` guards on
precipitation and wind. -/
def detectSignificantChangesA (o n : SnapA) : List ChangeA :=
  tempPartA o n ++ precipPartA o n ++ condPartA o n ++ windPartA o n

/-- A snapshot as compared by the second revision (normally the output of
`normalizeWeatherData`, but the function itself accepts any data; `none`
collapses `null` and `undefined`, both of which yield no entry). -/
structure SnapB where
  temperature : Option ℚ
  precipitation : Option ℚ
  condition : Option (List Char)
  windSpeed : Option ℚ
deriving DecidableEq, Repr

/-- A change entry of the second revision. -/
inductive ChangeB where
  | tempB (increased : Bool) (diff : ℚ)
  | precipB (diff : ℚ)
  | condB (oldC newC : List Char)
  | windB (diff : ℚ)
deriving DecidableEq, Repr

def tempPartB (o n : SnapB) : List ChangeB :=
  match o.temperature, n.temperature with
  | some a, some b => if 3 ≤ |b - a| then [.tempB (decide (a < b)) |b - a|] else []
  | _, _ => []

def precipPartB (o n : SnapB) : List ChangeB :=
  match o.precipitation, n.precipitation with
  | some a, some b => if 20 ≤ |b - a| then [.precipB |b - a|] else []
  | _, _ => []

/-- The condition families of the second revision's significance list, in
source order. -/
def significantConditions : List (List Char) :=
  ["rain".toList, "storm".toList, "snow".toList, "thunder".toList,
    "clear".toList, "sunny".toList]

/-- Does one side's lower-cased condition contain a family word the other
side lacks? -/
def condFamilyChanged (a b : List Char) : Bool :=
  significantConditions.any (fun w =>
    xor (containsSub w (a.map lowerChar)) (containsSub w (b.map lowerChar)))

def condPartB (o n : SnapB) : List ChangeB :=
  match o.condition, n.condition with
  | some a, some b =>
    if a ≠ [] ∧ b ≠ [] ∧ a ≠ b ∧ condFamilyChanged a b then [.condB a b] else []
  | _, _ => []

def windPartB (o n : SnapB) : List ChangeB :=
  match o.windSpeed, n.windSpeed with
  | some a, some b => if 15 ≤ |b - a| then [.windB |b - a|] else []
  | _, _ => []

/-- `detectSignificantChanges` of the second revision: temperature
threshold 3 with `typeof number` guards, `!== null` guards on
precipitation and wind, truthiness-guarded condition-family comparison. -/
def detectSignificantChangesB (o n : SnapB) : List ChangeB :=
  tempPartB o n ++ precipPartB o n ++ condPartB o n ++ windPartB o n

def isTempA : ChangeA → Bool
  | .tempA _ _ => true
  | _ => false

def isPrecipA : ChangeA → Bool
  | .precipA _ => true
  | _ => false

def isCondA : ChangeA → Bool
  | .condA _ _ => true
  | _ => false

def isWindA : ChangeA → Bool
  | .windA _ => true
  | _ => false

def isTempB : ChangeB → Bool
  | .tempB _ _ => true
  | _ => false

def isPrecipB : ChangeB → Bool
  | .precipB _ => true
  | _ => false

def isWindB : ChangeB → Bool
  | .windB _ => true
  | _ => false

/-- Did the report contain a temperature entry? (and likewise below) -/
def hasTempA (l : List ChangeA) : Bool := l.any isTempA
def hasPrecipA (l : List ChangeA) : Bool := l.any isPrecipA
def hasCondA (l : List ChangeA) : Bool := l.any isCondA
def hasWindA (l : List ChangeA) : Bool := l.any isWindA
def hasTempB (l : List ChangeB) : Bool := l.any isTempB
def hasPrecipB (l : List ChangeB) : Bool := l.any isPrecipB
def hasWindB (l : List ChangeB) : Bool := l.any isWindB

theorem any_isTempA_precipPartA (o n : SnapA) :
    (precipPartA o n).any isTempA = false := by
  unfold precipPartA
  cases o.precipitation <;> cases n.precipitation <;>
    first
      | (split <;> simp [isTempA])
      | simp [isTempA]

theorem any_isTempA_condPartA (o n : SnapA) :
    (condPartA o n).any isTempA = false := by
  unfold condPartA
  first
    | (split <;> simp [isTempA])
    | simp [isTempA]

theorem any_isTempA_windPartA (o n : SnapA) :
    (windPartA o n).any isTempA = false := by
  unfold windPartA
  cases o.wind <;> cases n.wind <;>
    first
      | (split <;> simp [isTempA])
      | simp [isTempA]

theorem any_isPrecipA_tempPartA (o n : SnapA) :
    (tempPartA o n).any isPrecipA = false := by
  unfold tempPartA
  cases o.temperature <;> cases n.temperature <;>
    first
      | (split <;> simp [isPrecipA])
      | simp [isPrecipA]

theorem any_isPrecipA_condPartA (o n : SnapA) :
    (condPartA o n).any isPrecipA = false := by
  unfold condPartA
  first
    | (split <;> simp [isPrecipA])
    | simp [isPrecipA]

theorem any_isPrecipA_windPartA (o n : SnapA) :
    (windPartA o n).any isPrecipA = false := by
  unfold windPartA
  cases o.wind <;> cases n.wind <;>
    first
      | (split <;> simp [isPrecipA])
      | simp [isPrecipA]

theorem any_isCondA_tempPartA (o n : SnapA) :
    (tempPartA o n).any isCondA = false := by
  unfold tempPartA
  cases o.temperature <;> cases n.temperature <;>
    first
      | (split <;> simp [isCondA])
      | simp [isCondA]

theorem any_isCondA_precipPartA (o n : SnapA) :
    (precipPartA o n).any isCondA = false := by
  unfold precipPartA
  cases o.precipitation <;> cases n.precipitation <;>
    first
      | (split <;> simp [isCondA])
      | simp [isCondA]

theorem any_isCondA_windPartA (o n : SnapA) :
    (windPartA o n).any isCondA = false := by
  unfold windPartA
  cases o.wind <;> cases n.wind <;>
    first
      | (split <;> simp [isCondA])
      | simp [isCondA]

theorem any_isWindA_tempPartA (o n : SnapA) :
    (tempPartA o n).any isWindA = false := by
  unfold tempPartA
  cases o.temperature <;> cases n.temperature <;>
    first
      | (split <;> simp [isWindA])
      | simp [isWindA]

theorem any_isWindA_precipPartA (o n : SnapA) :
    (precipPartA o n).any isWindA = false := by
  unfold precipPartA
  cases o.precipitation <;> cases n.precipitation <;>
    first
      | (split <;> simp [isWindA])
      | simp [isWindA]

theorem any_isWindA_condPartA (o n : SnapA) :
    (condPartA o n).any isWindA = false := by
  unfold condPartA
  first
    | (split <;> simp [isWindA])
    | simp [isWindA]

/-- A temperature entry of the first revision's report can only come from
its temperature comparison. -/
theorem hasTempA_detect (o n : SnapA) :
    hasTempA (detectSignificantChangesA o n) = (tempPartA o n).any isTempA := by
  simp [hasTempA, detectSignificantChangesA, List.any_append,
    any_isTempA_precipPartA, any_isTempA_condPartA, any_isTempA_windPartA]

theorem hasPrecipA_detect (o n : SnapA) :
    hasPrecipA (detectSignificantChangesA o n) =
      (precipPartA o n).any isPrecipA := by
  simp [hasPrecipA, detectSignificantChangesA, List.any_append,
    any_isPrecipA_tempPartA, any_isPrecipA_condPartA, any_isPrecipA_windPartA]

theorem hasCondA_detect (o n : SnapA) :
    hasCondA (detectSignificantChangesA o n) = (condPartA o n).any isCondA := by
  simp [hasCondA, detectSignificantChangesA, List.any_append,
    any_isCondA_tempPartA, any_isCondA_precipPartA, any_isCondA_windPartA]

theorem hasWindA_detect (o n : SnapA) :
    hasWindA (detectSignificantChangesA o n) = (windPartA o n).any isWindA := by
  simp [hasWindA, detectSignificantChangesA, List.any_append,
    any_isWindA_tempPartA, any_isWindA_precipPartA, any_isWindA_condPartA]

theorem any_isTempB_precipPartB (o n : SnapB) :
    (precipPartB o n).any isTempB = false := by
  unfold precipPartB
  cases o.precipitation <;> cases n.precipitation <;>
    first
      | (split <;> simp [isTempB])
      | simp [isTempB]

theorem any_isTempB_condPartB (o n : SnapB) :
    (condPartB o n).any isTempB = false := by
  unfold condPartB
  cases o.condition <;> cases n.condition <;>
    first
      | (split <;> simp_all [isTempB])
      | simp [isTempB]

theorem any_isTempB_windPartB (o n : SnapB) :
    (windPartB o n).any isTempB = false := by
  unfold windPartB
  cases o.windSpeed <;> cases n.windSpeed <;>
    first
      | (split <;> simp [isTempB])
      | simp [isTempB]

theorem any_isPrecipB_tempPartB (o n : SnapB) :
    (tempPartB o n).any isPrecipB = false := by
  unfold tempPartB
  cases o.temperature <;> cases n.temperature <;>
    first
      | (split <;> simp [isPrecipB])
      | simp [isPrecipB]

theorem any_isPrecipB_condPartB (o n : SnapB) :
    (condPartB o n).any isPrecipB = false := by
  unfold condPartB
  cases o.condition <;> cases n.condition <;>
    first
      | (split <;> simp_all [isPrecipB])
      | simp [isPrecipB]

theorem any_isPrecipB_windPartB (o n : SnapB) :
    (windPartB o n).any isPrecipB = false := by
  unfold windPartB
  cases o.windSpeed <;> cases n.windSpeed <;>
    first
      | (split <;> simp [isPrecipB])
      | simp [isPrecipB]

theorem any_isWindB_tempPartB (o n : SnapB) :
    (tempPartB o n).any isWindB = false := by
  unfold tempPartB
  cases o.temperature <;> cases n.temperature <;>
    first
      | (split <;> simp [isWindB])
      | simp [isWindB]

theorem any_isWindB_precipPartB (o n : SnapB) :
    (precipPartB o n).any isWindB = false := by
  unfold precipPartB
  cases o.precipitation <;> cases n.precipitation <;>
    first
      | (split <;> simp [isWindB])
      | simp [isWindB]

theorem any_isWindB_condPartB (o n : SnapB) :
    (condPartB o n).any isWindB = false := by
  unfold condPartB
  cases o.condition <;> cases n.condition <;>
    first
      | (split <;> simp_all [isWindB])
      | simp [isWindB]

/-- A temperature entry of the second revision's report can only come from
its temperature comparison. -/
theorem hasTempB_detect (o n : SnapB) :
    hasTempB (detectSignificantChangesB o n) = (tempPartB o n).any isTempB := by
  simp [hasTempB, detectSignificantChangesB, List.any_append,
    any_isTempB_precipPartB, any_isTempB_condPartB, any_isTempB_windPartB]

theorem hasPrecipB_detect (o n : SnapB) :
    hasPrecipB (detectSignificantChangesB o n) =
      (precipPartB o n).any isPrecipB := by
  simp [hasPrecipB, detectSignificantChangesB, List.any_append,
    any_isPrecipB_tempPartB, any_isPrecipB_condPartB, any_isPrecipB_windPartB]

theorem hasWindB_detect (o n : SnapB) :
    hasWindB (detectSignificantChangesB o n) = (windPartB o n).any isWindB := by
  simp [hasWindB, detectSignificantChangesB, List.any_append,
    any_isWindB_tempPartB, any_isWindB_precipPartB, any_isWindB_condPartB]

/-! ## Claim theorems -/

/-- C3: for every key, value and TTL, after `set(k, v, ttl)` a `get(k)` at
any `now < storedAt + ttl` returns the value and leaves the map unchanged;
a `get(k)` at any `now ≥ storedAt + ttl` reports absent and removes the
entry from the backing map (lazy purge on lookup), so no lookup returns a
value past `storedAt + ttl`. -/
theorem cacheStore_ttl_contract {α : Type} (c : CacheMap α) (k : List Char)
    (v : α) (ttl now now' : Nat) (hwf : CacheWF c) :
    (now' < now + ttl →
      cacheGet (cacheSet c k v ttl now) k now' =
        (some v, cacheSet c k v ttl now)) ∧
    (now + ttl ≤ now' →
      cacheGet (cacheSet c k v ttl now) k now' =
        (none, mapDelete (cacheSet c k v ttl now) k) ∧
      mapGet (mapDelete (cacheSet c k v ttl now) k) k = none) := by
  have hget : mapGet (cacheSet c k v ttl now) k = some ⟨v, now + ttl⟩ := by
    unfold cacheSet
    exact mapGet_mapSet_self c k ⟨v, now + ttl⟩
  have hwf' : CacheWF (cacheSet c k v ttl now) := by
    unfold cacheSet
    exact cacheWF_mapSet c k ⟨v, now + ttl⟩ hwf
  refine ⟨fun h => ?_, fun h => ⟨?_, ?_⟩⟩
  · unfold cacheGet
    rw [hget]
    simp [h]
  · unfold cacheGet
    rw [hget]
    simp [Nat.not_lt.mpr h]
  · exact mapGet_mapDelete_self _ k hwf'

/-- Witness for `cacheStore_ttl_contract` at `ttl = 100`, `storedAt = 0`:
a lookup at 99 returns the value, a lookup at 100 reports absent. -/
theorem cacheStore_ttl_contract_witness :
    cacheGet (cacheSet ([] : CacheMap Nat) ("k".toList) 7 100 0)
        ("k".toList) 99 =
      (some 7, cacheSet ([] : CacheMap Nat) ("k".toList) 7 100 0) ∧
    cacheGet (cacheSet ([] : CacheMap Nat) ("k".toList) 7 100 0)
        ("k".toList) 100 =
      (none, mapDelete (cacheSet ([] : CacheMap Nat) ("k".toList) 7 100 0)
        ("k".toList)) := by
  have hwf : CacheWF ([] : CacheMap Nat) := by simp [CacheWF, cacheKeys]
  have h99 := cacheStore_ttl_contract ([] : CacheMap Nat) ("k".toList) 7 100 0 99 hwf
  have h100 := cacheStore_ttl_contract ([] : CacheMap Nat) ("k".toList) 7 100 0 100 hwf
  exact ⟨h99.1 (by omega), (h100.2 (by omega)).1⟩

/-- A sample OpenWeatherMap response payload. -/
def owmSample : OwmCurrent :=
  ⟨"London".toList, "GB".toList, 51, 0, 22, 21, 20, 24, 60, 1013, 5, 180,
    20, 10000, "Clear".toList, "clear sky".toList, "01d".toList,
    1700000000, 1700040000⟩

/-- C2 (code bug): the service passes TTLs of `600`, `1800` and `3600` to
`cacheService.set` (commented "10 minutes", "30 minutes", "1 hour"), but
`set` adds the TTL to `Date.now()` in milliseconds — so a current-weather
entry stored at time 0 is already gone at 60 000 ms (one minute), far
inside the documented 10-minute window, and likewise for the forecast and
historical entries inside their 30- and 60-minute windows. -/
theorem operation_ttls_expire_early :
    ((cacheGet (wsGetCurrentWeather 51 0 [] 0 (some owmSample)).2
        (currentWeatherKey 51 0) 60000).1 = none ∧
      60000 < 10 * 60 * 1000) ∧
    ((cacheGet (cacheSet ([] : CacheMap Nat)
        ("weather:forecast:51:0".toList) 0 forecastTtl 0)
        ("weather:forecast:51:0".toList) 60000).1 = none ∧
      60000 < 30 * 60 * 1000) ∧
    ((cacheGet (cacheSet ([] : CacheMap Nat)
        ("weather:history:london:7".toList) 0 historicalTtl 0)
        ("weather:history:london:7".toList) 60000).1 = none ∧
      60000 < 60 * 60 * 1000) := by
  refine ⟨⟨rfl, by norm_num⟩, ⟨rfl, by norm_num⟩, ⟨rfl, by norm_num⟩⟩

/-- C4: when the cache misses and every provider attempt fails, the caller
receives the synthesized snapshot flagged `fallback = true` (instead of an
exception), and nothing is written to the cache under the request's key —
any subsequent lookup of that key misses. -/
theorem fallback_flagged_not_cached (st : CacheMap WeatherPayload)
    (now : Nat) (lat lon : Int) (hwf : CacheWF st)
    (hmiss : (cacheGet st (currentWeatherKey lat lon) now).1 = none) :
    (wsGetCurrentWeather lat lon st now none).1.fallback = true ∧
    mapGet (wsGetCurrentWeather lat lon st now none).2
      (currentWeatherKey lat lon) = none := by
  have hstate := cacheGet_miss_state st (currentWeatherKey lat lon) now hmiss
  have hpair : cacheGet st (currentWeatherKey lat lon) now =
      (none, mapDelete st (currentWeatherKey lat lon)) := by
    rw [← hstate, ← hmiss]
  simp only [wsGetCurrentWeather, hpair]
  exact ⟨rfl, mapGet_mapDelete_self st _ hwf⟩

/-- Witness for `fallback_flagged_not_cached` on the empty cache. -/
theorem fallback_flagged_not_cached_witness :
    (wsGetCurrentWeather 1 2 ([] : CacheMap WeatherPayload) 0 none).1.fallback
        = true ∧
    mapGet (wsGetCurrentWeather 1 2 ([] : CacheMap WeatherPayload) 0 none).2
      (currentWeatherKey 1 2) = none :=
  fallback_flagged_not_cached [] 0 1 2 (by simp [CacheWF, cacheKeys]) rfl

/-- C1 (code bug): `fetchWithRetry` returns a resolved HTTP 500 response
without retrying — `handleResponse`, which turns non-ok statuses into
errors, runs outside the retry loop — so the spec's "500, 500, then 200"
scenario produces a sanitized failure after a single network call instead
of the third attempt's snapshot.  Thrown network errors, by contrast, are
retried: two network failures followed by a good response succeed after
three calls. -/
theorem http500_not_retried_divergence :
    feGetCurrentWeather ("London".toList) script500 =
      (.error ("Unable to fetch weather data. Please try again.".toList), 1) ∧
    feGetCurrentWeather ("London".toList) scriptNetThenOk =
      (.ok ("snapshot".toList), 3) :=
  ⟨by decide, by decide⟩

theorem dangerous3_of_sub (t p : List Char)
    (hp : p = ";".toList ∨ p = "--".toList ∨ p = "/*".toList ∨ p = "*/".toList)
    (h : containsSub p t = true) : dangerous3 t = true := by
  unfold dangerous3
  rcases hp with rfl | rfl | rfl | rfl <;> simp_all

theorem dangerous4_of_sub (t p : List Char)
    (hp : p = "||".toList ∨ p = "&&".toList)
    (h : containsSub p t = true) : dangerous4 t = true := by
  unfold dangerous4
  rcases hp with rfl | rfl <;> simp_all

theorem dangerous5_of_code (t : List Char) (m : Nat)
    (hm : ∀ c : Char, c.toNat = m → metaChar c = true)
    (h : t.any (fun c => c.toNat == m) = true) : dangerous5 t = true := by
  unfold dangerous5
  rw [List.any_eq_true] at h ⊢
  obtain ⟨c, hc, hcm⟩ := h
  exact ⟨c, hc, hm c (by simpa using hcm)⟩

/-- The injection markers named by the claim: a blacklisted SQL keyword on
word boundaries, a statement separator or comment marker, or one of the
template/shell metacharacters (dollar, braces, backtick, `||`, `&&`).
Characters are written by code point: 36 `$`, 123/125 braces, 96 backtick. -/
def claimInjectionMarker (t : List Char) : Bool :=
  dangerous1 t ||
  containsSub (";".toList) t || containsSub ("--".toList) t ||
  containsSub ("/*".toList) t || containsSub ("*/".toList) t ||
  t.any (fun c => c.toNat == 36) || t.any (fun c => c.toNat == 123) ||
  t.any (fun c => c.toNat == 125) || t.any (fun c => c.toNat == 96) ||
  containsSub ("||".toList) t || containsSub ("&&".toList) t

/-- C5: any input whose trimmed form contains a SQL keyword on word
boundaries, a statement separator / comment marker, or a template/shell
metacharacter is rejected by `validateInput`, and neither revision of the
`getCurrentWeather` pipeline performs a single network call for it. -/
theorem injection_rejected_before_network (raw : List Char)
    (h : claimInjectionMarker (jsTrim raw) = true) :
    (∃ e, validateInput raw 100 = .error e) ∧
    (∀ (β : Type) (script : Nat → FetchOutcome β),
      (feGetCurrentWeather raw script).2 = 0) ∧
    (∀ (β γ : Type) (geo : GeoOutcome) (script : Nat → FetchOutcome β)
      (format : β → γ), (p3GetCurrentWeather raw geo script format).2 = 0) := by
  have hrej : ∃ e, validateInput raw 100 = .error e := by
    unfold validateInput
    by_cases h0 : (jsTrim raw).length = 0
    · exact ⟨.empty, by simp [h0]⟩
    · by_cases h1 : 100 < (jsTrim raw).length
      · exact ⟨.tooLong 100, by simp [h0, h1]⟩
      · have hd : (dangerous1 (jsTrim raw) || dangerous2 (jsTrim raw) ||
            dangerous3 (jsTrim raw) || dangerous4 (jsTrim raw) ||
            dangerous5 (jsTrim raw) || dangerous6 (jsTrim raw)) = true := by
          unfold claimInjectionMarker at h
          simp only [Bool.or_eq_true] at h ⊢
          rcases h with
            ((((((((((h | h) | h) | h) | h) | h) | h) | h) | h) | h) | h)
          · exact Or.inl (Or.inl (Or.inl (Or.inl (Or.inl h))))
          · exact Or.inl (Or.inl (Or.inl (Or.inr (dangerous3_of_sub _ _
              (Or.inl rfl) h))))
          · exact Or.inl (Or.inl (Or.inl (Or.inr (dangerous3_of_sub _ _
              (Or.inr (Or.inl rfl)) h))))
          · exact Or.inl (Or.inl (Or.inl (Or.inr (dangerous3_of_sub _ _
              (Or.inr (Or.inr (Or.inl rfl))) h))))
          · exact Or.inl (Or.inl (Or.inl (Or.inr (dangerous3_of_sub _ _
              (Or.inr (Or.inr (Or.inr rfl))) h))))
          · exact Or.inl (Or.inr
              (dangerous5_of_code _ 36 (fun c hc => by simp [metaChar, hc]) h))
          · exact Or.inl (Or.inr
              (dangerous5_of_code _ 123 (fun c hc => by simp [metaChar, hc]) h))
          · exact Or.inl (Or.inr
              (dangerous5_of_code _ 125 (fun c hc => by simp [metaChar, hc]) h))
          · exact Or.inl (Or.inr
              (dangerous5_of_code _ 96 (fun c hc => by simp [metaChar, hc]) h))
          · exact Or.inl (Or.inl (Or.inr (dangerous4_of_sub _ _
              (Or.inl rfl) h)))
          · exact Or.inl (Or.inl (Or.inr (dangerous4_of_sub _ _
              (Or.inr rfl) h)))
        exact ⟨.injection, by simp [h0, h1, hd]⟩
  obtain ⟨e, he⟩ := hrej
  refine ⟨⟨e, he⟩, fun β script => ?_, fun β γ geo script format => ?_⟩
  · simp [feGetCurrentWeather, he]
  · simp [p3GetCurrentWeather, he]

/-- Witness for `injection_rejected_before_network` on
`"Tokyo; DROP TABLE users"`: rejected, and the first-revision pipeline
makes zero network calls even with a provider available. -/
theorem injection_rejected_before_network_witness :
    (∃ e, validateInput ("Tokyo; DROP TABLE users".toList) 100 = .error e) ∧
    (feGetCurrentWeather ("Tokyo; DROP TABLE users".toList) script500).2 = 0 := by
  have h := injection_rejected_before_network
    ("Tokyo; DROP TABLE users".toList) (by decide)
  exact ⟨h.1, h.2.1 (List Char) script500⟩

/-- The character set named by the claim: ASCII letters, Latin-1 accented
letters (0xC0–0xFF excluding the non-letters ×/÷ at 0xD7/0xF7), digits,
plain space, hyphen, apostrophe (39), comma, period, parentheses. -/
def claimCityChar (c : Char) : Bool :=
  (65 ≤ c.toNat && c.toNat ≤ 90) || (97 ≤ c.toNat && c.toNat ≤ 122) ||
  (0xC0 ≤ c.toNat && c.toNat ≤ 0xFF && !(c.toNat == 0xD7) &&
    !(c.toNat == 0xF7)) ||
  (48 ≤ c.toNat && c.toNat ≤ 57) || c.toNat == 32 || c.toNat == 45 ||
  c.toNat == 39 || c.toNat == 44 || c.toNat == 46 || c.toNat == 40 ||
  c.toNat == 41

theorem claimCityChar_safe (c : Char) (h : claimCityChar c = true) :
    safeChar c = true := by
  unfold claimCityChar at h
  unfold safeChar isJsWhitespace
  simp only [Bool.or_eq_true, Bool.and_eq_true, Bool.not_eq_true',
    decide_eq_true_eq, beq_iff_eq, beq_eq_false_iff_ne] at h ⊢
  omega

theorem claimCityChar_nfkc (c : Char) (h : claimCityChar c = true) :
    (if compatSpace c then ' ' else c) = c := by
  have hfalse : compatSpace c = false := by
    rw [Bool.eq_false_iff]
    intro hc
    unfold compatSpace at hc
    unfold claimCityChar at h
    simp only [Bool.or_eq_true, Bool.and_eq_true, Bool.not_eq_true',
      decide_eq_true_eq, beq_iff_eq, beq_eq_false_iff_ne] at h hc
    omega
  rw [hfalse]
  simp

theorem nfkcModel_eq_self (t : List Char)
    (h : ∀ c ∈ t, claimCityChar c = true) : nfkcModel t = t := by
  unfold nfkcModel
  induction t with
  | nil => rfl
  | cons c cs ih =>
    simp only [List.map_cons]
    rw [claimCityChar_nfkc c (h c (List.mem_cons_self c cs)),
      ih (fun d hd => h d (List.mem_cons_of_mem c hd))]

theorem all_safe_of_claim (t : List Char)
    (h : ∀ c ∈ t, claimCityChar c = true) : t.all safeChar = true := by
  rw [List.all_eq_true]
  exact fun c hc => claimCityChar_safe c (h c hc)

/-- C6 counterexample: `"Union City"` is a real city name made only of the
claim's permitted characters, 10 ≤ 100 characters, already trimmed — yet
`validateInput` rejects it (the SQL-keyword pattern matches `UNION`). -/
theorem valid_city_rejected_counterexample :
    ("Union City".toList).all claimCityChar = true ∧
    ("Union City".toList).length ≤ 100 ∧
    jsTrim ("Union City".toList) = "Union City".toList ∧
    validateInput ("Union City".toList) 100 = .error .injection :=
  ⟨by decide, by decide, by decide, by decide⟩

/-- C6 amended: a trimmed name of 1–100 permitted characters that
additionally matches none of the six dangerous patterns (no blacklisted
SQL/boolean keyword token, no separator/comment/metacharacter sequence —
in particular no `--` or `..` formed by the permitted hyphen/period)
validates successfully, and the returned normalized string equals the
trimmed input. -/
theorem valid_city_validate_ok (raw : List Char)
    (h1 : jsTrim raw ≠ [])
    (h2 : (jsTrim raw).length ≤ 100)
    (hc : ∀ c ∈ jsTrim raw, claimCityChar c = true)
    (hp1 : dangerous1 (jsTrim raw) = false)
    (hp2 : dangerous2 (jsTrim raw) = false)
    (hp3 : dangerous3 (jsTrim raw) = false)
    (hp4 : dangerous4 (jsTrim raw) = false)
    (hp6 : dangerous6 (jsTrim raw) = false) :
    validateInput raw 100 = .ok (jsTrim raw) := by
  have hp5 : dangerous5 (jsTrim raw) = false := by
    rw [Bool.eq_false_iff]
    intro hmeta
    unfold dangerous5 at hmeta
    rw [List.any_eq_true] at hmeta
    obtain ⟨c, hcmem, hmc⟩ := hmeta
    have hcc := hc c hcmem
    unfold claimCityChar at hcc
    unfold metaChar at hmc
    simp only [Bool.or_eq_true, Bool.and_eq_true, Bool.not_eq_true',
      decide_eq_true_eq, beq_iff_eq, beq_eq_false_iff_ne] at hcc hmc
    omega
  have hlen0 : ¬((jsTrim raw).length = 0) := by
    simpa [List.length_eq_zero] using h1
  have hlen100 : ¬(100 < (jsTrim raw).length) := by omega
  unfold validateInput
  rw [if_neg hlen0, if_neg hlen100, hp1, hp2, hp3, hp4, hp5, hp6]
  simp only [Bool.or_self, if_false]
  rw [all_safe_of_claim _ hc]
  simp [nfkcModel_eq_self _ hc]

/-- Witness for `valid_city_validate_ok` on `"Nairobi"`. -/
theorem valid_city_validate_ok_witness :
    validateInput ("Nairobi".toList) 100 = .ok ("Nairobi".toList) := by
  have h := valid_city_validate_ok ("Nairobi".toList) (by decide) (by decide)
    (by decide) (by decide) (by decide) (by decide) (by decide) (by decide)
  rw [show jsTrim ("Nairobi".toList) = "Nairobi".toList from by decide] at h
  exact h

/-- `rawCWNone` with `main.temp = 0`: a defined value of `0` at the
highest-priority temperature path. -/
def rawMainTempZero : RawCW := { rawCWNone with main_temp := some 0 }

/-- C7 counterexample: `formatCurrentWeather` chains paths with `||`, so a
defined `main.temp` of `0` is *skipped* (falsy) and the temperature comes
out as the default `20`, not `0`. -/
theorem defined_zero_skipped_counterexample :
    rawMainTempZero.main_temp = some 0 ∧
    (formatCurrentWeather rawMainTempZero 0).temperature = some 20 := by
  constructor
  · rfl
  · simp [formatCurrentWeather, rawMainTempZero, rawCWNone, jsOrQ, truthyQ]

/-- C7 amended: `formatCurrentWeather` takes the first *truthy* value of
the temperature paths (a non-zero `main.temp` wins; a `0` falls through),
defaulting to the neutral placeholder `20` when all paths are absent
rather than throwing; `normalizeWeatherData`, by contrast, takes the first
*defined* value — a temperature of `0` at its highest-priority path is
kept (rounded). -/
theorem extraction_priority_amended :
    (∀ (d : RawCW) (now : Nat) (v : ℚ), d.location = none →
      d.main_temp = some v → v ≠ 0 →
      (formatCurrentWeather d now).temperature = some v) ∧
    (∀ (d : RawCW) (now : Nat), d.location = none → d.main_temp = none →
      d.temperature = none → d.current_temp = none →
      (formatCurrentWeather d now).temperature = some 20) ∧
    (∀ (r : RawN) (now : Nat) (v : ℚ), r.temperature = some v →
      (normalizeWeatherData r now).temperature = some (jsRound v)) := by
  refine ⟨?_, ?_, ?_⟩
  · intro d now v hloc hmt hv
    simp [formatCurrentWeather, hloc, hmt, jsOrQ, truthyQ, hv]
  · intro d now hloc hmt ht hct
    simp [formatCurrentWeather, hloc, hmt, ht, hct, jsOrQ, truthyQ]
  · intro r now v ht
    simp [normalizeWeatherData, ht]

/-- `rawCWNone` with `main.temp = 5`. -/
def rawMainTemp5 : RawCW := { rawCWNone with main_temp := some 5 }

/-- `rawNNone` with `temperature = 0`. -/
def rawNTempZero : RawN := { rawNNone with temperature := some 0 }

/-- Witness for `extraction_priority_amended`: a non-zero `main.temp` is
taken; all-absent paths default to 20; the second normalizer keeps a
defined `0`. -/
theorem extraction_priority_amended_witness :
    (formatCurrentWeather rawMainTemp5 0).temperature = some 5 ∧
    (formatCurrentWeather rawCWNone 0).temperature = some 20 ∧
    (normalizeWeatherData rawNTempZero 0).temperature = some 0 := by
  refine ⟨extraction_priority_amended.1 rawMainTemp5 0 5 rfl rfl (by norm_num),
    extraction_priority_amended.2.1 rawCWNone 0 rfl rfl rfl rfl, ?_⟩
  have h := extraction_priority_amended.2.2 rawNTempZero 0 0 rfl
  rw [h]
  norm_num [jsRound]

/-- C8 counterexample: the first revision of `detectSignificantChanges`
emits a temperature entry for a delta of 2.5 °C, which is below the
claimed 3 °C threshold. -/
theorem temp_threshold_counterexample :
    hasTempA (detectSignificantChangesA
      ⟨some 20, some 0, some ("Clear".toList), some 5⟩
      ⟨some (45 / 2), some 0, some ("Clear".toList), some 5⟩) = true ∧
    ¬((3 : ℚ) ≤ |45 / 2 - 20|) := by
  have habs : |(45 : ℚ) / 2 - 20| = 5 / 2 := by
    rw [show (45 : ℚ) / 2 - 20 = 5 / 2 from by norm_num]
    exact abs_of_nonneg (by norm_num)
  constructor
  · rw [hasTempA_detect]
    unfold tempPartA
    simp only [habs]
    rw [if_pos (by norm_num)]
    simp [isTempA]
  · rw [habs]
    norm_num

/-- C8 amended: with numeric temperatures on both sides, the second
revision of the detector emits a temperature entry iff the absolute delta
is at least 3 °C, while the first revision uses a 2 °C threshold. -/
theorem temp_threshold_amended (oB nB : SnapB) (a b : ℚ)
    (hoB : oB.temperature = some a) (hnB : nB.temperature = some b)
    (oA nA : SnapA) (c d : ℚ)
    (hoA : oA.temperature = some c) (hnA : nA.temperature = some d) :
    (hasTempB (detectSignificantChangesB oB nB) = true ↔ 3 ≤ |b - a|) ∧
    (hasTempA (detectSignificantChangesA oA nA) = true ↔ 2 ≤ |d - c|) := by
  constructor
  · rw [hasTempB_detect]
    unfold tempPartB
    rw [hoB, hnB]
    by_cases h : (3 : ℚ) ≤ |b - a|
    · simp [h, isTempB]
    · simp [h, isTempB]
  · rw [hasTempA_detect]
    unfold tempPartA
    rw [hoA, hnA]
    by_cases h : (2 : ℚ) ≤ |d - c|
    · simp [h, isTempA]
    · simp [h, isTempA]

/-- Witness for `temp_threshold_amended`: the spec's scenario on the second
revision — baseline 20, new 23.5 triggers; new 21.5 does not. -/
theorem temp_threshold_amended_witness :
    hasTempB (detectSignificantChangesB
      ⟨some 20, some 0, some ("Clear".toList), some 5⟩
      ⟨some (47 / 2), some 0, some ("Clear".toList), some 5⟩) = true ∧
    hasTempB (detectSignificantChangesB
      ⟨some 20, some 0, some ("Clear".toList), some 5⟩
      ⟨some (43 / 2), some 0, some ("Clear".toList), some 5⟩) = false := by
  constructor
  · exact (temp_threshold_amended
      ⟨some 20, some 0, some ("Clear".toList), some 5⟩
      ⟨some (47 / 2), some 0, some ("Clear".toList), some 5⟩ 20 (47 / 2)
      rfl rfl ⟨some 0, none, none, none⟩ ⟨some 0, none, none, none⟩ 0 0
      rfl rfl).1.mpr (by
        rw [show (47 : ℚ) / 2 - 20 = 7 / 2 from by norm_num,
          abs_of_nonneg (show (0 : ℚ) ≤ 7 / 2 from by norm_num)]
        norm_num)
  · have h := (temp_threshold_amended
      ⟨some 20, some 0, some ("Clear".toList), some 5⟩
      ⟨some (43 / 2), some 0, some ("Clear".toList), some 5⟩ 20 (43 / 2)
      rfl rfl ⟨some 0, none, none, none⟩ ⟨some 0, none, none, none⟩ 0 0
      rfl rfl).1
    rw [Bool.eq_false_iff]
    intro hb
    have h2 := h.mp hb
    rw [show (43 : ℚ) / 2 - 20 = 3 / 2 from by norm_num,
      abs_of_nonneg (show (0 : ℚ) ≤ 3 / 2 from by norm_num)] at h2
    norm_num at h2

theorem startsWithChars_append (p rest : List Char) :
    startsWithChars p (p ++ rest) = true := by
  induction p with
  | nil => rfl
  | cons a ps ih => simp [startsWithChars, ih]

theorem containsSub_append_left (p rest : List Char) :
    containsSub p (p ++ rest) = true := by
  cases p with
  | nil =>
    cases rest with
    | nil => rfl
    | cons c cs => simp [containsSub, startsWithChars]
  | cons a ps =>
    have h := startsWithChars_append (a :: ps) rest
    simp only [List.cons_append] at h ⊢
    simp [containsSub, h]

/-- C9 counterexample: an upstream HTTP 500 on the by-city path is surfaced
to the caller as HTTP 404 with a "City not found" message — a failure kind
other than not-found is reported as city-not-found. -/
theorem city_not_found_counterexample :
    (controllerGetCurrentByCity ("London".toList) [] 0
        (.error (.httpStatus 500))).1.status = 404 ∧
    containsSub ("City not found".toList)
      (controllerGetCurrentByCity ("London".toList) [] 0
        (.error (.httpStatus 500))).1.message = true :=
  ⟨by decide, by decide⟩

/-- C9 amended: on a cache miss the by-city service consults the provider
exactly once (no retry construct exists) and maps *every* failure —
including 5xx and network errors, not just upstream 404 — to
`City not found: <city>`, which the controller classifies as HTTP 404; the
alternate weather route's `sanitizeError`, by contrast, does distinguish
upstream 404 (city not found) from other statuses and network failures. -/
theorem city_not_found_amended (city : List Char)
    (st : CacheMap WeatherPayload) (now : Nat) (f : UpstreamFailure)
    (hmiss : (cacheGet st (cityWeatherKey (stripSuffix city)) now).1 = none) :
    controllerGetCurrentByCity city st now (.error f) =
      (⟨404, false, "City not found: ".toList ++ stripSuffix city⟩,
        mapDelete st (cityWeatherKey (stripSuffix city)), 1) ∧
    routeSanitizeError (.response 404) =
      (404, "City not found. Please check the spelling.".toList) ∧
    routeSanitizeError (.response 500) =
      (500, "Unable to fetch weather data.".toList) ∧
    routeSanitizeError .dnsFail =
      (503, "Unable to reach weather service. Check your connection.".toList) := by
  have hstate := cacheGet_miss_state st (cityWeatherKey (stripSuffix city))
    now hmiss
  have hpair : cacheGet st (cityWeatherKey (stripSuffix city)) now =
      (none, mapDelete st (cityWeatherKey (stripSuffix city))) := by
    rw [← hstate, ← hmiss]
  have hmsg : ("City not found: ".toList ++ stripSuffix city) =
      "City not found".toList ++ (": ".toList ++ stripSuffix city) := by
    rw [show "City not found: ".toList =
      "City not found".toList ++ ": ".toList from by decide, List.append_assoc]
  have hc : containsSub ("City not found".toList)
      ("City not found: ".toList ++ stripSuffix city) = true := by
    rw [hmsg]
    exact containsSub_append_left _ _
  refine ⟨?_, rfl, rfl, rfl⟩
  simp only [controllerGetCurrentByCity, wsGetCurrentWeatherByCity, hpair,
    hc, Bool.true_or, if_true]

/-- Witness for `city_not_found_amended`: the genuine upstream-404 case on
the empty cache. -/
theorem city_not_found_amended_witness :
    controllerGetCurrentByCity ("London".toList) [] 0
        (.error (.httpStatus 404)) =
      (⟨404, false,
          "City not found: ".toList ++ stripSuffix ("London".toList)⟩,
        mapDelete [] (cityWeatherKey (stripSuffix ("London".toList))), 1) :=
  (city_not_found_amended ("London".toList) [] 0 (.httpStatus 404) rfl).1

/-- C10 counterexample: in the first revision of the detector, the
condition comparison is unguarded, so a condition entry fires although the
condition field is missing on one side — a field absent from one snapshot
contributes an entry to the alert. -/
theorem missing_field_entry_counterexample :
    ((⟨some 20, some 0, none, some 5⟩ : SnapA).condition = none) ∧
    hasCondA (detectSignificantChangesA
      ⟨some 20, some 0, none, some 5⟩
      ⟨some 20, some 0, some ("Rain".toList), some 5⟩) = true := by
  refine ⟨rfl, ?_⟩
  rw [hasCondA_detect]
  unfold condPartA
  rw [if_pos (by simp)]
  simp [isCondA]

/-- C10 amended: precipitation (wind) entries require the field present on
both sides in *both* detector revisions — a missing side suppresses the
entry no matter how large the change — but the first revision's condition
comparison lacks such a guard (see the counterexample). -/
theorem missing_fields_no_entry_amended (oA nA : SnapA) (oB nB : SnapB) :
    ((oA.precipitation = none ∨ nA.precipitation = none) →
      hasPrecipA (detectSignificantChangesA oA nA) = false) ∧
    ((oA.wind = none ∨ nA.wind = none) →
      hasWindA (detectSignificantChangesA oA nA) = false) ∧
    ((oB.precipitation = none ∨ nB.precipitation = none) →
      hasPrecipB (detectSignificantChangesB oB nB) = false) ∧
    ((oB.windSpeed = none ∨ nB.windSpeed = none) →
      hasWindB (detectSignificantChangesB oB nB) = false) := by
  refine ⟨fun h => ?_, fun h => ?_, fun h => ?_, fun h => ?_⟩
  · rw [hasPrecipA_detect]
    unfold precipPartA
    rcases h with h | h
    · rw [h]
      simp
    · rw [h]
      cases oA.precipitation <;> simp
  · rw [hasWindA_detect]
    unfold windPartA
    rcases h with h | h
    · rw [h]
      simp
    · rw [h]
      cases oA.wind <;> simp
  · rw [hasPrecipB_detect]
    unfold precipPartB
    rcases h with h | h
    · rw [h]
      simp
    · rw [h]
      cases oB.precipitation <;> simp
  · rw [hasWindB_detect]
    unfold windPartB
    rcases h with h | h
    · rw [h]
      simp
    · rw [h]
      cases oB.windSpeed <;> simp

/-- Witness for `missing_fields_no_entry_amended`: a 100-point
precipitation jump and a 99 km/h wind jump produce no entry when the field
is missing on the other side. -/
theorem missing_fields_no_entry_amended_witness :
    hasPrecipA (detectSignificantChangesA
      ⟨some 20, none, some ("Clear".toList), some 5⟩
      ⟨some 20, some 100, some ("Clear".toList), some 5⟩) = false ∧
    hasWindB (detectSignificantChangesB
      ⟨some 20, some 0, some ("Clear".toList), none⟩
      ⟨some 20, some 0, some ("Clear".toList), some 99⟩) = false := by
  constructor
  · exact (missing_fields_no_entry_amended
      ⟨some 20, none, some ("Clear".toList), some 5⟩
      ⟨some 20, some 100, some ("Clear".toList), some 5⟩
      ⟨some 20, some 0, some ("Clear".toList), none⟩
      ⟨some 20, some 0, some ("Clear".toList), some 99⟩).1 (Or.inl rfl)
  · exact (missing_fields_no_entry_amended
      ⟨some 20, none, some ("Clear".toList), some 5⟩
      ⟨some 20, some 100, some ("Clear".toList), some 5⟩
      ⟨some 20, some 0, some ("Clear".toList), none⟩
      ⟨some 20, some 0, some ("Clear".toList), some 99⟩).2.2.2 (Or.inl rfl)
